import Mathlib

/-
Verification development for the tum uptime-monitoring daemon (src/main.py).

The Python source is shallowly embedded: each monitor loop body, the metrics
store, the probe control flow and the daemon lifecycle guards are translated
into executable Lean definitions. External effects (file reads, network calls,
wall-clock time) are passed in as explicit parameters: a file read is an
Option/Except value, a network operation is a symbolic outcome together with
the wall-clock duration it consumed, and the current UTC time is an opaque
Nat timestamp.
-/

namespace Tum

/--
Metrics record for one service, mirroring the JSON object
`{ isup, total_uptime, total_downtime, last_downtime }` written by each
monitor loop in src/main.py. Timestamps (the isoformat strings produced by
`datetime.now(timezone.utc)`) are modelled as opaque Nat values. The `isup`
field is a plain Bool because every record the program itself creates carries
the key: the freshly substituted record sets `isup: False` explicitly
(src/main.py line 222) and every persisted record is written from a dict that
contains it (line 245).
-/
structure Metrics where
  isup : Bool
  total_uptime : Nat
  total_downtime : Nat
  last_downtime : Option Nat
deriving DecidableEq

/--
The zero-valued record substituted by every monitor loop when the per-service
metrics file cannot be opened or parsed (src/main.py lines 218-222):
`{'isup': False, 'total_uptime': 0, 'total_downtime': 0, 'last_downtime': None}`.
-/
def freshMetrics : Metrics :=
  { isup := false, total_uptime := 0, total_downtime := 0, last_downtime := none }

/--
One metrics update as performed by every monitor loop body
(src/main.py lines 239-245, identical in the HTTP, SMB, FTP and SSH loops):
if `up` then `total_uptime += interval`, else `total_downtime += interval`
and, when the stored `isup` is true, `last_downtime = now`; finally
`isup = up`. The resulting record is the one persisted to the metrics file
on that tick (lines 247-248).
-/
def metricsUpdate (m : Metrics) (up : Bool) (interval : Nat) (now : Nat) : Metrics :=
  if up then
    { m with total_uptime := m.total_uptime + interval, isup := up }
  else
    { m with
      total_downtime := m.total_downtime + interval
      last_downtime := if m.isup then some now else m.last_downtime
      isup := up }

/--
Folding a whole sequence of ticks over the metrics record at a fixed
interval: each list element is the probe result of one tick paired with the
UTC timestamp observed on that tick.
-/
def runTicks (interval : Nat) : Metrics → List (Bool × Nat) → Metrics
  | m, [] => m
  | m, (u, now) :: rest => runTicks interval (metricsUpdate m u interval now) rest

/--
Outcome of one `requests.get(url, timeout=interval, verify=False)` call in the
HTTP monitor loop (src/main.py line 306): a response with some status code,
an SSLError (TLS negotiation failure), or any other RequestException
(network error, timeout, DNS failure).
-/
inductive ReqOutcome
  | resp (code : Nat)
  | sslError
  | reqError
deriving DecidableEq

/-- Which of the two candidate URLs a request was made to. -/
inductive Scheme
  | secure
  | insecure
deriving DecidableEq

/--
The `for url in (https_url, http_url)` loop of the HTTP monitor tick
(src/main.py lines 301-315), given the outcome each URL would produce when
requested. Returns the tick result `up` together with the list of URLs
actually attempted, in order. A response breaks out of the loop after
setting `up` iff the status code is in [200, 400); an SSLError continues to
the next URL; any other RequestException breaks with `up` still false.
-/
def httpLoop : List (Scheme × ReqOutcome) → Bool × List Scheme
  | [] => (false, [])
  | (s, o) :: rest =>
    match o with
    | .resp c => (decide (200 ≤ c ∧ c < 400), [s])
    | .sslError =>
      let r := httpLoop rest
      (r.1, s :: r.2)
    | .reqError => (false, [s])

/--
One HTTP probe tick: the loop runs over the secure URL first, then the
insecure URL (src/main.py line 304: `for url in (https_url, http_url)`).
-/
def httpTick (oSecure oInsecure : ReqOutcome) : Bool × List Scheme :=
  httpLoop [(.secure, oSecure), (.insecure, oInsecure)]

/--
One blocking network operation inside a probe: whether it succeeded (raising
an exception counts as failure) and the wall-clock duration it consumed
before returning or raising. Every such operation in the source is given the
polling interval as its timeout argument, which bounds the duration of each
single operation but not of a sequence of them.
-/
structure OpRun where
  ok : Bool
  dur : Nat
deriving DecidableEq

/--
The blocking operations of one FTP probe tick (src/main.py lines 434-448):
`ftp.connect(host, port, timeout=interval)`, `ftp.login(...)`, the optional
`ftp.cwd(loc)`, `ftp.nlst()` and `ftp.quit()`.
-/
structure FtpEnv where
  connect : OpRun
  login : OpRun
  cwd : OpRun
  nlst : OpRun
  quit : OpRun
deriving DecidableEq

/--
One FTP probe tick (src/main.py lines 432-450): the operations run in order;
the first failing operation raises, the surrounding `except all_errors`
handler (which covers every ftplib protocol error, OSError and EOFError these
calls raise) sets `up = False`, and no exception escapes the tick. `up` ends
true only when every performed operation succeeded, including `ftp.quit()`,
since a quit failure also lands in the handler which overwrites `up` with
False. `needCwd` is the `loc and loc != "/"` test of line 443. Returns the
tick result together with the total wall-clock duration consumed.
-/
def ftpProbe (needCwd : Bool) (e : FtpEnv) : Bool × Nat :=
  let t1 := e.connect.dur
  if e.connect.ok then
    let t2 := t1 + e.login.dur
    if e.login.ok then
      if needCwd then
        let t3 := t2 + e.cwd.dur
        if e.cwd.ok then
          let t4 := t3 + e.nlst.dur
          if e.nlst.ok then
            let t5 := t4 + e.quit.dur
            if e.quit.ok then (true, t5) else (false, t5)
          else (false, t4)
        else (false, t3)
      else
        let t4 := t2 + e.nlst.dur
        if e.nlst.ok then
          let t5 := t4 + e.quit.dur
          if e.quit.ok then (true, t5) else (false, t5)
        else (false, t4)
    else (false, t2)
  else (false, t1)

/--
Outcome of the single `subprocess.run(["ping", "-c", "1", target], ...,
timeout=interval)` call of one ICMP probe tick (src/main.py lines 224-237):
the process ran and exited with some return code, the budget expired
(TimeoutExpired), or any other exception was raised. Each outcome carries the
wall-clock duration consumed.
-/
inductive IcmpOutcome
  | ran (returncode : Nat) (dur : Nat)
  | timedOut (dur : Nat)
  | failed (dur : Nat)
deriving DecidableEq

/--
One ICMP probe tick: `up = (completed.returncode == 0)`; TimeoutExpired and
every other exception are caught and set `up = False` (src/main.py
lines 233-237). Returns the result with the duration consumed.
-/
def icmpProbe : IcmpOutcome → Bool × Nat
  | .ran rc d => (rc == 0, d)
  | .timedOut d => (false, d)
  | .failed d => (false, d)

/--
Loading the per-service metrics record in a monitor loop (src/main.py
lines 218-222): the try block opens the file and JSON-parses it; any
exception — file absent, unreadable, or malformed content — lands in the
except branch which substitutes the zero-valued record. `fileContent` is the
readable file content (none when the file is absent or unreadable) and
`parse` is the JSON decoding of a content string (none when parsing fails).
-/
def loadMetricsRecord (fileContent : Option String) (parse : String → Option Metrics) :
    Metrics :=
  match fileContent with
  | none => freshMetrics
  | some s =>
    match parse s with
    | none => freshMetrics
    | some m => m

/--
One service entry of the config file, mirroring the JSON object built by
`add_service` (src/main.py lines 111-120). `username` and `password` are
Option String at the record level so that a dict missing the key can be
distinguished from a key bound to a string: the SMB monitor reads them with
`svc.get("username", "GUEST")` and `svc.get("password", "")`, whose defaults
only apply when the key is absent.
-/
structure ServiceRecord where
  name : String
  service_type : String
  target : String
  port : Option Nat
  location : String
  username : Option String
  password : Option String
  interval : Nat
deriving DecidableEq

/--
The `default_ports` table of `add_service` (src/main.py lines 97-103)
together with the `default_ports.get(service_type, None)` lookup: ICMP maps
to None, an unknown type also yields None.
-/
def default_ports (service_type : String) : Option Nat :=
  if service_type = "SMB" then some 445
  else if service_type = "FTP" then some 21
  else if service_type = "HTTP" then some 80
  else if service_type = "SSH" then some 22
  else none

/--
The entry that `add_service` stores in the config for a new service
(src/main.py lines 104-121): the port falls back to the protocol default
when absent, `location or "/"` turns a missing or empty location into "/",
and `username or ""` / `password or ""` turn missing credentials into the
empty string — so the stored record always carries the username and password
keys, bound to "" when no credentials were given. The caller passes none for
an omitted argument.
-/
def add_service_entry (name service_type : String) (interval : Nat)
    (username password : Option String) (target : String) (port : Option Nat)
    (location : Option String) : ServiceRecord :=
  { name := name
    service_type := service_type
    target := target
    port := match port with
      | none => default_ports service_type
      | some p => some p
    location := match location with
      | none => "/"
      | some l => if l = "" then "/" else l
    username := some (match username with
      | none => ""
      | some u => u)
    password := some (match password with
      | none => ""
      | some p => p)
    interval := interval }

/--
The username the SMB monitor passes to SMBConnection (src/main.py line 369):
`svc.get("username", "GUEST")` — the stored value when the key is present,
"GUEST" only when the key is absent from the record.
-/
def smbAuthUsername (svc : ServiceRecord) : String :=
  svc.username.getD "GUEST"

/--
The password the SMB monitor passes to SMBConnection (src/main.py line 370):
`svc.get("password", "")`.
-/
def smbAuthPassword (svc : ServiceRecord) : String :=
  svc.password.getD ""

/--
One console line produced by `show_status_all_services` (src/main.py
lines 173-211), with the numeric rendering abstracted: a summary line set
carries the service name and the metrics record it was computed from.
-/
inductive StatusLine
  | daemonNotRunning
  | noServices
  | header
  | noMetricsYet (name : String)
  | summary (name : String) (m : Metrics)
deriving DecidableEq

/--
The status reporter `show_status_all_services` (src/main.py lines 173-211):
it first checks `is_daemon_running()` and, when the daemon is not running,
prints only a warning and returns; with a running daemon it prints a
no-services warning when the registry is empty, and otherwise one block per
configured service — a no-metrics line when the per-service metrics file
cannot be opened and parsed (modelled by `readMetrics` returning none),
and a summary of the loaded record otherwise.
-/
def show_status_all_services (daemonRunning : Bool) (services : List ServiceRecord)
    (readMetrics : String → Option Metrics) : List StatusLine :=
  if daemonRunning = false then [.daemonNotRunning]
  else if services.isEmpty then [.noServices]
  else
    .header :: services.map (fun svc =>
      match readMetrics svc.name with
      | none => .noMetricsYet svc.name
      | some m => .summary svc.name m)

/--
The `is_daemon_running` check (src/main.py lines 142-154). `pidRead` models
reading the PID file: none when the file is absent, `some none` when reading
or parsing its content raises, `some (some p)` when a pid p was parsed.
`alive p` models `os.kill(p, 0)` succeeding. Returns the (running, pid) pair
the function returns.
-/
def is_daemon_running (pidRead : Option (Option Nat)) (alive : Nat → Bool) :
    Bool × Option Nat :=
  match pidRead with
  | none => (false, none)
  | some none => (false, none)
  | some (some p) => if alive p then (true, some p) else (false, some p)

/-- How a `start_daemon` invocation ends. -/
inductive StartOutcome
  | refusedNoServices
  | refusedAlreadyRunning (pid : Option Nat)
  | started
deriving DecidableEq

/--
Observable effect of one `start_daemon` invocation: its outcome, whether any
file was created or modified, and how many monitor threads were spawned.
-/
structure StartResult where
  outcome : StartOutcome
  filesWritten : Bool
  threadsSpawned : Nat
deriving DecidableEq

/--
The guard phase of `start_daemon` (src/main.py lines 574-599): it first
refuses when the config has no services (printing a warning only), then
refuses when `is_daemon_running` reports a live instance (printing only);
both refusals return before `os.makedirs`, the log truncation and the
daemon context, so no file is modified and no thread spawned. Otherwise it
writes the log and PID file, detaches, and `daemon_worker` spawns one
monitor thread per configured service.
-/
def start_daemon (services : List String) (pidRead : Option (Option Nat))
    (alive : Nat → Bool) : StartResult :=
  if services.isEmpty then
    { outcome := .refusedNoServices, filesWritten := false, threadsSpawned := 0 }
  else
    let r := is_daemon_running pidRead alive
    if r.1 then
      { outcome := .refusedAlreadyRunning r.2, filesWritten := false, threadsSpawned := 0 }
    else
      { outcome := .started, filesWritten := true, threadsSpawned := services.length }

/-- Python truthiness of the optional port values used by the HTTP monitor:
None and 0 are falsy. -/
def truthyPort : Option Nat → Bool
  | none => false
  | some p => p != 0

/--
The effective port of the HTTP monitor (src/main.py lines 266-272):
the configured `svc["port"]` when truthy, else the port parsed from the
target URL when truthy, else 443 for an https target and 80 otherwise.
-/
def effectivePort (svcPort parsedPort : Option Nat) (schemeIsHttps : Bool) : Nat :=
  if truthyPort svcPort then svcPort.getD 0
  else if truthyPort parsedPort then parsedPort.getD 0
  else if schemeIsHttps then 443 else 80

/--
The candidate URL construction of the HTTP monitor (src/main.py
lines 283-289): when the effective port is 80 or 443 the port is omitted
from both URLs, otherwise both URLs carry an explicit `:port`. Returns
(secure URL, insecure URL).
-/
def buildUrls (host loc : String) (port : Nat) : String × String :=
  if port = 80 ∨ port = 443 then
    ("https://" ++ host ++ loc, "http://" ++ host ++ loc)
  else
    ("https://" ++ host ++ ":" ++ toString port ++ loc,
     "http://" ++ host ++ ":" ++ toString port ++ loc)

end Tum

namespace Tum

/-- Helper: one tick adds the interval to exactly one of the two counters. -/
theorem metricsUpdate_counter_sum (m : Metrics) (up : Bool) (interval now : Nat) :
    (metricsUpdate m up interval now).total_uptime
      + (metricsUpdate m up interval now).total_downtime
      = m.total_uptime + m.total_downtime + interval := by
  cases up <;> simp [metricsUpdate] <;> omega

/-- Helper: counter totals over a whole tick sequence, from any start state. -/
theorem runTicks_counter_sum (interval : Nat) (ticks : List (Bool × Nat)) (m : Metrics) :
    (runTicks interval m ticks).total_uptime + (runTicks interval m ticks).total_downtime
      = m.total_uptime + m.total_downtime + ticks.length * interval := by
  induction ticks generalizing m with
  | nil => simp [runTicks]
  | cons t rest ih =>
    obtain ⟨u, now⟩ := t
    simp only [runTicks, ih, metricsUpdate_counter_sum, List.length_cons]
    ring

/--
C2 (counterexample): the claim asserts that on a down tick from the freshly
substituted zero-valued record (no persisted record existed) `last_downtime`
is set to the current time. In the code the fresh record carries
`isup: False`, so `metrics.get('isup', True)` is False and `last_downtime`
stays None: after one down tick at interval 60 and current time 7 the stored
`last_downtime` is still none, not 7.
-/
theorem metrics_update_fresh_down_counterexample :
    (metricsUpdate freshMetrics false 60 7).last_downtime = none
      ∧ (metricsUpdate freshMetrics false 60 7).last_downtime ≠ some 7 := by
  decide

/--
C2 (amended): on every tick, if `up` then `total_uptime` grows by exactly the
interval; otherwise `total_downtime` grows by exactly the interval and
`last_downtime` is set to the current UTC time exactly when the stored `isup`
was true; in all cases `isup` is then set to `up` and that record is the one
persisted. (The fresh zero-valued record has `isup` false, so a first-ever
down tick does not set `last_downtime`.)
-/
theorem metrics_update_characterization (m : Metrics) (up : Bool) (interval now : Nat) :
    metricsUpdate m up interval now =
      { isup := up
        total_uptime := m.total_uptime + (if up then interval else 0)
        total_downtime := m.total_downtime + (if up then 0 else interval)
        last_downtime :=
          if up = false ∧ m.isup = true then some now else m.last_downtime } := by
  cases up <;> cases h : m.isup <;> simp [metricsUpdate, h]

/--
C3: over any sequence of ticks, the stored `last_downtime` changes only on a
tick whose probe result is down while the previously stored `isup` was true;
it is unchanged on a down tick following a down tick, and unchanged on every
up tick. Stated for an arbitrary current record, which covers every state
reachable along any tick sequence.
-/
theorem last_downtime_edge_only (m : Metrics) (up : Bool) (interval now : Nat) :
    ((metricsUpdate m up interval now).last_downtime ≠ m.last_downtime →
        up = false ∧ m.isup = true)
      ∧ (m.isup = false →
        (metricsUpdate m false interval now).last_downtime = m.last_downtime)
      ∧ (metricsUpdate m true interval now).last_downtime = m.last_downtime := by
  refine ⟨?_, ?_, ?_⟩
  · intro h
    cases up <;> cases hi : m.isup <;> simp [metricsUpdate, hi] at h ⊢
  · intro hi
    simp [metricsUpdate, hi]
  · simp [metricsUpdate]

/--
C3 (witness): concrete instance, a down tick on a record whose stored `isup`
is false leaves `last_downtime` unchanged.
-/
theorem last_downtime_edge_only_witness :
    (metricsUpdate freshMetrics false 60 7).last_downtime = freshMetrics.last_downtime :=
  (last_downtime_edge_only freshMetrics false 60 7).2.1 rfl

/--
C4: starting from the zero-valued record, after N ticks at fixed interval I
(each tick persisting its update, no restart) the persisted counters satisfy
total_uptime + total_downtime = N * I, for every N and every sequence of
boolean probe results.
-/
theorem counters_sum_to_ticks_times_interval (interval : Nat) (ticks : List (Bool × Nat)) :
    (runTicks interval freshMetrics ticks).total_uptime
      + (runTicks interval freshMetrics ticks).total_downtime
      = ticks.length * interval := by
  simp [runTicks_counter_sum, freshMetrics]

/--
C5: the HTTP probe attempts the secure URL first and attempts the insecure
URL exactly when the secure attempt failed with a TLS-negotiation error (on
any other network error it does not fall back), and the tick result is up iff
an attempted request returned a response whose status code lies in [200,400).
-/
theorem http_probe_fallback_and_status (o1 o2 : ReqOutcome) :
    ((httpTick o1 o2).2 =
        if o1 = ReqOutcome.sslError then [Scheme.secure, Scheme.insecure]
        else [Scheme.secure])
      ∧ ((httpTick o1 o2).1 = true ↔
        ((∃ c, o1 = ReqOutcome.resp c ∧ 200 ≤ c ∧ c < 400)
          ∨ (o1 = ReqOutcome.sslError
              ∧ ∃ c, o2 = ReqOutcome.resp c ∧ 200 ≤ c ∧ c < 400))) := by
  cases o1 <;> cases o2 <;>
    simp [httpTick, httpLoop, decide_eq_true_iff, and_assoc]

/--
C6 (counterexample): the claim asserts one probe invocation never runs past
its time budget, the polling interval. With interval 60, an FTP tick whose
connect succeeds after 60 seconds and whose login then consumes its full
60-second timeout before failing takes 120 seconds — each individual
operation within its own timeout, yet the probe runs past the interval.
-/
theorem ftp_probe_budget_counterexample :
    (ftpProbe false ⟨⟨true, 60⟩, ⟨false, 60⟩, ⟨true, 0⟩, ⟨true, 0⟩, ⟨true, 0⟩⟩).2 = 120
      ∧ ¬ ((ftpProbe false ⟨⟨true, 60⟩, ⟨false, 60⟩, ⟨true, 0⟩, ⟨true, 0⟩, ⟨true, 0⟩⟩).2
            ≤ 60) := by
  decide

/--
C6 (amended): a probe invocation never propagates an exception — every
internal fault, timeout or protocol error resolves to the boolean false (the
FTP tick is up iff all its operations succeed, the ICMP tick is up iff the
ping process exited 0) — and each blocking operation is individually bounded
by the polling interval, so a probe of k blocking operations completes within
k times the interval (5 for FTP); a multi-operation probe is not bounded by
the interval itself.
-/
theorem probe_fault_collapse_and_budget (needCwd : Bool) (e : FtpEnv) (o : IcmpOutcome)
    (interval : Nat)
    (h1 : e.connect.dur ≤ interval) (h2 : e.login.dur ≤ interval)
    (h3 : e.cwd.dur ≤ interval) (h4 : e.nlst.dur ≤ interval)
    (h5 : e.quit.dur ≤ interval) :
    ((ftpProbe needCwd e).1 = true ↔
        (e.connect.ok = true ∧ e.login.ok = true ∧ (needCwd = true → e.cwd.ok = true)
          ∧ e.nlst.ok = true ∧ e.quit.ok = true))
      ∧ (ftpProbe needCwd e).2 ≤ 5 * interval
      ∧ ((icmpProbe o).1 = true ↔ ∃ d, o = IcmpOutcome.ran 0 d) := by
  obtain ⟨⟨c1, d1⟩, ⟨c2, d2⟩, ⟨c3, d3⟩, ⟨c4, d4⟩, ⟨c5, d5⟩⟩ := e
  simp only at h1 h2 h3 h4 h5
  refine ⟨?_, ?_, ?_⟩
  · cases needCwd <;> cases c1 <;> cases c2 <;> cases c3 <;> cases c4 <;> cases c5 <;>
      simp [ftpProbe]
  · cases needCwd <;> cases c1 <;> cases c2 <;> cases c3 <;> cases c4 <;> cases c5 <;>
      simp [ftpProbe] <;> omega
  · cases o <;> simp [icmpProbe]

/--
C6 (witness): concrete instance, an all-successful FTP tick with one-second
operations stays within five 60-second intervals.
-/
theorem probe_fault_collapse_and_budget_witness :
    (ftpProbe false ⟨⟨true, 1⟩, ⟨true, 1⟩, ⟨true, 1⟩, ⟨true, 1⟩, ⟨true, 1⟩⟩).2 ≤ 5 * 60 :=
  (probe_fault_collapse_and_budget false
      ⟨⟨true, 1⟩, ⟨true, 1⟩, ⟨true, 1⟩, ⟨true, 1⟩, ⟨true, 1⟩⟩
      (IcmpOutcome.ran 0 1) 60
      (by decide) (by decide) (by decide) (by decide) (by decide)).2.1

/--
C7: loading a metrics record whose backing file is absent, unreadable or
malformed yields the zero-valued record
`{isup: false, total_uptime: 0, total_downtime: 0, last_downtime: none}`;
the load is a total function, so no error reaches the caller.
-/
theorem load_missing_or_malformed (fileContent : Option String)
    (parse : String → Option Metrics)
    (h : fileContent = none ∨ ∀ s, fileContent = some s → parse s = none) :
    loadMetricsRecord fileContent parse =
      { isup := false, total_uptime := 0, total_downtime := 0, last_downtime := none } := by
  cases fileContent with
  | none => rfl
  | some s =>
    rcases h with h | h
    · exact absurd h (by simp)
    · simp [loadMetricsRecord, h s rfl, freshMetrics]

/--
C7 (witness): concrete instance, loading with the backing file absent yields
the zero-valued record.
-/
theorem load_missing_or_malformed_witness :
    loadMetricsRecord none (fun _ => some freshMetrics) =
      { isup := false, total_uptime := 0, total_downtime := 0, last_downtime := none } :=
  load_missing_or_malformed none (fun _ => some freshMetrics) (Or.inl rfl)

/--
C1 (counterexample): the claim asserts the status reporter outputs a summary
for every configured service with readable metrics even when no daemon
process is alive. With the daemon not running, one configured service and its
metrics perfectly readable, the reporter prints only the daemon-not-running
warning and no summary at all.
-/
theorem status_requires_daemon_counterexample :
    show_status_all_services false
        [add_service_entry "A" "ICMP" 60 none none "1.1.1.1" none none]
        (fun _ => some freshMetrics)
      = [StatusLine.daemonNotRunning]
      ∧ StatusLine.summary "A" freshMetrics ∉
          show_status_all_services false
            [add_service_entry "A" "ICMP" 60 none none "1.1.1.1" none none]
            (fun _ => some freshMetrics) := by
  decide

/--
C1 (amended): when the daemon is not running the status reporter prints only
a daemon-not-running warning and reports no service; when the daemon is
running and at least one service is configured, it outputs a summary for
every configured service whose persisted metrics are readable.
-/
theorem status_reports_when_running (running : Bool) (services : List ServiceRecord)
    (readMetrics : String → Option Metrics) :
    (running = false →
        show_status_all_services running services readMetrics
          = [StatusLine.daemonNotRunning])
      ∧ (running = true → services ≠ [] →
        ∀ svc ∈ services, ∀ m, readMetrics svc.name = some m →
          StatusLine.summary svc.name m ∈
            show_status_all_services running services readMetrics) := by
  constructor
  · intro h
    subst h
    rfl
  · intro hr hne svc hsvc m hm
    subst hr
    have hempty : services.isEmpty = false := by
      cases services with
      | nil => exact absurd rfl hne
      | cons a l => rfl
    simp only [show_status_all_services, hempty, Bool.false_eq_true, if_neg,
      Bool.true_eq_false, if_false, List.mem_cons]
    right
    exact List.mem_map.mpr ⟨svc, hsvc, by simp [hm]⟩

/--
C1 (witness): concrete instance, with the daemon running the sole configured
service with readable metrics gets a summary line.
-/
theorem status_reports_when_running_witness :
    StatusLine.summary "A" freshMetrics ∈
      show_status_all_services true
        [add_service_entry "A" "ICMP" 60 none none "1.1.1.1" none none]
        (fun _ => some freshMetrics) :=
  (status_reports_when_running true
      [add_service_entry "A" "ICMP" 60 none none "1.1.1.1" none none]
      (fun _ => some freshMetrics)).2 rfl (by decide)
    (add_service_entry "A" "ICMP" 60 none none "1.1.1.1" none none) (by decide)
    freshMetrics rfl

/--
C8: `start_daemon` is refused when the registry has zero services, and
refused when the liveness check on the recorded pid reports a live instance;
in both refusal cases it only reports, modifying no file and spawning no
monitor thread.
-/
theorem start_daemon_refusals (services : List String) (pidRead : Option (Option Nat))
    (alive : Nat → Bool) :
    (services = [] →
        start_daemon services pidRead alive =
          { outcome := StartOutcome.refusedNoServices
            filesWritten := false, threadsSpawned := 0 })
      ∧ (services ≠ [] → (is_daemon_running pidRead alive).1 = true →
        start_daemon services pidRead alive =
          { outcome := StartOutcome.refusedAlreadyRunning (is_daemon_running pidRead alive).2
            filesWritten := false, threadsSpawned := 0 }) := by
  constructor
  · intro h
    subst h
    rfl
  · intro hne hrun
    have hempty : services.isEmpty = false := by
      cases services with
      | nil => exact absurd rfl hne
      | cons a l => rfl
    simp [start_daemon, hempty, hrun]

/--
C8 (witness): concrete instance, starting with one configured service while
the PID file records pid 5 and that pid is alive is refused with no file
written and no thread spawned.
-/
theorem start_daemon_refusals_witness :
    start_daemon ["A"] (some (some 5)) (fun _ => true) =
      { outcome := StartOutcome.refusedAlreadyRunning (some 5)
        filesWritten := false, threadsSpawned := 0 } :=
  (start_daemon_refusals ["A"] (some (some 5)) (fun _ => true)).2 (by decide) rfl

/--
C9: evaluation at the failing input. A service added without credentials
stores `username: ""` (because `add_service` writes `username or ""`), so
the SMB monitor, reading `svc.get("username", "GUEST")`, passes the empty
string — not "GUEST" — to SMBConnection: the guest default is unreachable
for entries created by `add_service`, contradicting the inline comment
"Connect as guest if no username provided".
-/
theorem smb_guest_username_bug :
    smbAuthUsername (add_service_entry "S" "SMB" 60 none none "host" none none) = ""
      ∧ smbAuthUsername (add_service_entry "S" "SMB" 60 none none "host" none none)
          ≠ "GUEST"
      ∧ smbAuthPassword (add_service_entry "S" "SMB" 60 none none "host" none none)
          = "" := by
  refine ⟨rfl, ?_, rfl⟩
  decide

/--
C10: when the effective port is 80 or 443 it is omitted from both candidate
URLs, so for a service configured with port 443 the insecure fallback URL is
the bare `http://host/loc` — identical to the one a port-80 service gets,
hence targeting the scheme default port 80, not 443 — and symmetrically the
secure URL of a port-80 service is the bare `https://host/loc`, targeting
port 443.
-/
theorem http_default_port_omitted (host loc : String) (parsedPort : Option Nat)
    (schemeIsHttps : Bool) :
    buildUrls host loc (effectivePort (some 443) parsedPort schemeIsHttps)
        = ("https://" ++ host ++ loc, "http://" ++ host ++ loc)
      ∧ buildUrls host loc (effectivePort (some 80) parsedPort schemeIsHttps)
        = ("https://" ++ host ++ loc, "http://" ++ host ++ loc)
      ∧ (buildUrls host loc (effectivePort (some 443) parsedPort schemeIsHttps)).2
        = (buildUrls host loc (effectivePort (some 80) parsedPort schemeIsHttps)).2
      ∧ (buildUrls host loc (effectivePort (some 80) parsedPort schemeIsHttps)).1
        = (buildUrls host loc (effectivePort (some 443) parsedPort schemeIsHttps)).1 := by
  refine ⟨?_, ?_, ?_, ?_⟩ <;> simp [buildUrls, effectivePort, truthyPort]

end Tum
